import Mathlib

/-!
Shallow embedding of the configuration resolution and validation engine of
the proserve EC2 component. Definitions are translated from the TypeScript
sources: the constants module, the validator module, the workload and OS
catalogs, the resolver in ec2.ts, the volume helpers in utils/volumes.ts,
and the Ec2Instance component in src/index.ts. JavaScript truthiness is
modelled explicitly: an optional string is falsy when absent or empty, an
optional number is falsy when absent or zero.
-/

/-- JavaScript `x || d` for an optional string: absent or empty falls back. -/
def jsStrOr (x : Option String) (d : String) : String :=
  match x with
  | some s => if s = "" then d else s
  | none => d

/-- JavaScript `x || d` for an optional number: absent or zero falls back. -/
def jsIntOr (x : Option Int) (d : Int) : Int :=
  match x with
  | some n => if n = 0 then d else n
  | none => d

/-- JavaScript `x || d` for a plain number: zero falls back. -/
def jsIntOr2 (x d : Int) : Int :=
  if x = 0 then d else x

/-- Sequencing of two validation steps: the first thrown error wins. -/
def exSeq (a b : Except String Unit) : Except String Unit :=
  match a with
  | .ok _ => b
  | .error e => .error e

theorem exSeq_ok_iff (a b : Except String Unit) :
    exSeq a b = .ok () ↔ a = .ok () ∧ b = .ok () := by
  cases a with
  | ok u => cases u; simp [exSeq]
  | error e => simp [exSeq]

/-! ## Constants (src constants module, Object.values in declaration order) -/

def OPERATING_SYSTEMS : List String :=
  ["amazon-linux-2023", "amazon-linux-2", "ubuntu-22-04", "ubuntu-20-04",
   "rhel-9", "rhel-8", "centos-7", "windows-server-2022", "windows-server-2019"]

def WORKLOAD_TYPES : List String :=
  ["development", "web-server", "application", "database",
   "high-performance", "testing", "production"]

def ENVIRONMENTS : List String :=
  ["development", "staging", "production", "disaster-recovery", "testing"]

def ACCESS_TYPES : List String :=
  ["private-only", "bastion-access", "public-access", "load-balancer"]

def BACKUP_STRATEGIES : List String :=
  ["none", "daily", "weekly", "critical"]

def MONITORING_LEVELS : List String :=
  ["basic", "detailed", "enhanced", "enterprise"]

def VOLUME_TYPES : List String :=
  ["standard", "gp2", "gp3", "io1", "io2"]

/-! ## Input data model (types.ts, fields as used by ec2.ts and the validator) -/

structure AdditionalVolumeArgs where
  name : String
  size : Int
  type : Option String := none
  encrypted : Option Bool := none
  kmsKeyId : Option String := none
  iops : Option Int := none
  throughput : Option Int := none
  mountPoint : Option String := none
deriving DecidableEq, Repr

structure Ec2Args where
  name : String
  operatingSystem : String
  workload : String
  project : String
  subnetId : String
  securityGroupIds : List String
  keyPairName : Option String := none
  environment : Option String := none
  team : Option String := none
  application : Option String := none
  costCenter : Option String := none
  accessType : Option String := none
  instanceType : Option String := none
  rootVolumeSize : Option Int := none
  rootVolumeType : Option String := none
  monitoringLevel : Option String := none
  backupStrategy : Option String := none
  enableDetailedMonitoring : Option Bool := none
  enableTerminationProtection : Option Bool := none
  additionalVolumes : Option (List AdditionalVolumeArgs) := none
  userData : Option String := none
  iamInstanceProfile : Option String := none
  tags : List (String × String) := []
deriving DecidableEq, Repr

/-! ## Enum validators (validators module) -/

def validateOperatingSystem (os : String) : Except String Unit :=
  if OPERATING_SYSTEMS.contains os then .ok ()
  else .error ("Invalid operatingSystem: \"" ++ os ++ "\". Valid values: "
    ++ String.intercalate ", " OPERATING_SYSTEMS)

def validateWorkloadType (workload : String) : Except String Unit :=
  if WORKLOAD_TYPES.contains workload then .ok ()
  else .error ("Invalid workload: \"" ++ workload ++ "\". Valid values: "
    ++ String.intercalate ", " WORKLOAD_TYPES)

def validateEnvironment (env : String) : Except String Unit :=
  if ENVIRONMENTS.contains env then .ok ()
  else .error ("Invalid environment: \"" ++ env ++ "\". Valid values: "
    ++ String.intercalate ", " ENVIRONMENTS)

def validateAccessType (accessType : String) : Except String Unit :=
  if ACCESS_TYPES.contains accessType then .ok ()
  else .error ("Invalid accessType: \"" ++ accessType ++ "\". Valid values: "
    ++ String.intercalate ", " ACCESS_TYPES)

def validateBackupStrategy (strategy : String) : Except String Unit :=
  if BACKUP_STRATEGIES.contains strategy then .ok ()
  else .error ("Invalid backupStrategy: \"" ++ strategy ++ "\". Valid values: "
    ++ String.intercalate ", " BACKUP_STRATEGIES)

def validateMonitoringLevel (level : String) : Except String Unit :=
  if MONITORING_LEVELS.contains level then .ok ()
  else .error ("Invalid monitoringLevel: \"" ++ level ++ "\". Valid values: "
    ++ String.intercalate ", " MONITORING_LEVELS)

def validateVolumeType (type : String) : Except String Unit :=
  if VOLUME_TYPES.contains type then .ok ()
  else .error ("Invalid volume type: \"" ++ type ++ "\". Valid values: "
    ++ String.intercalate ", " VOLUME_TYPES)

/-! ## Identifier format validators (regex `subnet-[a-f0-9]\x7b8,17\x7d` with i flag) -/

/-- Case-insensitive hexadecimal digit, the character class of the id regexes. -/
def isHexDigitCI (c : Char) : Bool :=
  (Char.ofNat 97 ≤ c && c ≤ Char.ofNat 102) ||
  (Char.ofNat 65 ≤ c && c ≤ Char.ofNat 70) ||
  (Char.ofNat 48 ≤ c && c ≤ Char.ofNat 57)

/-- ASCII lowercase folding: the effect of the regex i flag on one character. -/
def toLowerASCII (c : Char) : Char :=
  if Char.ofNat 65 ≤ c && c ≤ Char.ofNat 90 then Char.ofNat (c.toNat + 32) else c

/-- Consume a literal token at the head of a character list, comparing
characters case-insensitively because the i flag spans the whole pattern,
the literal token included. -/
def matchTok : List Char → List Char → Option (List Char)
  | [], cs => some cs
  | _ :: _, [] => none
  | t :: ts, c :: cs => if toLowerASCII c = toLowerASCII t then matchTok ts cs else none

/-- Anchored match of the id shape: the literal token matched
case-insensitively, then 8 to 17 case-insensitive hex digits. -/
def matchesIdFormat (tok : String) (s : String) : Bool :=
  match matchTok tok.data s.data with
  | some rest => rest.all isHexDigitCI && decide (8 ≤ rest.length) && decide (rest.length ≤ 17)
  | none => false

def validateSubnetId (subnetId : String) : Except String Unit :=
  if matchesIdFormat "subnet-" subnetId then .ok ()
  else .error ("Invalid subnet ID format: " ++ subnetId
    ++ ". Expected format: subnet-xxxxxxxx or subnet-xxxxxxxxxxxxxxxxx")

def validateSecurityGroupId (sgId : String) (index : Nat) : Except String Unit :=
  if matchesIdFormat "sg-" sgId then .ok ()
  else .error ("Invalid security group ID format at index " ++ toString index ++ ": " ++ sgId
    ++ ". Expected format: sg-xxxxxxxx or sg-xxxxxxxxxxxxxxxxx")

/-! ## Additional volume validator -/

def checkVolumeName (v : AdditionalVolumeArgs) (index : Nat) : Except String Unit :=
  if v.name = "" then
    .error ("Additional volume name is required at index " ++ toString index)
  else .ok ()

def checkVolumeSize (v : AdditionalVolumeArgs) (index : Nat) : Except String Unit :=
  if v.size = 0 || v.size < 1 || v.size > 16384 then
    .error ("Additional volume size must be between 1 and 16384 GB at index " ++ toString index)
  else .ok ()

def checkVolumeType (v : AdditionalVolumeArgs) : Except String Unit :=
  match v.type with
  | some t => if t = "" then .ok () else validateVolumeType t
  | none => .ok ()

def checkVolumeIops (v : AdditionalVolumeArgs) (index : Nat) : Except String Unit :=
  match v.iops with
  | some i =>
      if i ≠ 0 && (i < 100 || i > 64000) then
        .error ("Additional volume IOPS must be between 100 and 64000 at index " ++ toString index)
      else .ok ()
  | none => .ok ()

def checkVolumeThroughput (v : AdditionalVolumeArgs) (index : Nat) : Except String Unit :=
  match v.throughput with
  | some t =>
      if t ≠ 0 && (t < 125 || t > 1000) then
        .error ("Additional volume throughput must be between 125 and 1000 MiB/s at index "
          ++ toString index)
      else .ok ()
  | none => .ok ()

def validateAdditionalVolume (v : AdditionalVolumeArgs) (index : Nat) : Except String Unit :=
  exSeq (checkVolumeName v index)
    (exSeq (checkVolumeSize v index)
      (exSeq (checkVolumeType v)
        (exSeq (checkVolumeIops v index) (checkVolumeThroughput v index))))

/-! ## Whole-input validator (validateArgs) -/

def validateSecurityGroupIdsFrom : List String → Nat → Except String Unit
  | [], _ => .ok ()
  | sg :: rest, i => exSeq (validateSecurityGroupId sg i) (validateSecurityGroupIdsFrom rest (i + 1))

def validateAdditionalVolumesFrom : List AdditionalVolumeArgs → Nat → Except String Unit
  | [], _ => .ok ()
  | v :: rest, i => exSeq (validateAdditionalVolume v i) (validateAdditionalVolumesFrom rest (i + 1))

def checkOptionalEnum (field : Option String) (f : String → Except String Unit) :
    Except String Unit :=
  match field with
  | some s => if s = "" then .ok () else f s
  | none => .ok ()

def validateArgs (config : Ec2Args) : Except String Unit :=
  exSeq (if config.name = "" then .error "name is required" else .ok ())
    (exSeq (if config.operatingSystem = "" then .error "operatingSystem is required" else .ok ())
      (exSeq (validateOperatingSystem config.operatingSystem)
        (exSeq (if config.workload = "" then .error "workload is required" else .ok ())
          (exSeq (validateWorkloadType config.workload)
            (exSeq (if config.subnetId = "" then .error "subnetId is required" else .ok ())
              (exSeq (if config.securityGroupIds.isEmpty then
                        .error "securityGroupIds must be provided and non-empty" else .ok ())
                (exSeq (if config.project = "" then .error "project is required" else .ok ())
                  (exSeq (validateSubnetId config.subnetId)
                    (exSeq (validateSecurityGroupIdsFrom config.securityGroupIds 0)
                      (exSeq (checkOptionalEnum config.environment validateEnvironment)
                        (exSeq (checkOptionalEnum config.accessType validateAccessType)
                          (exSeq (checkOptionalEnum config.backupStrategy validateBackupStrategy)
                            (exSeq (checkOptionalEnum config.monitoringLevel validateMonitoringLevel)
                              (match config.additionalVolumes with
                               | some vols => validateAdditionalVolumesFrom vols 0
                               | none => .ok ()))))))))))))))

/-! ## Catalogs (data/workloads.ts and the OS configuration table) -/

structure WorkloadConfig where
  instanceType : String
  vcpus : Int
  memoryGiB : Int
  networkPerformance : String
  monitoringLevel : String
  backupStrategy : String
  terminationProtection : Bool
  rootVolumeSize : Int
deriving DecidableEq, Repr

structure OsConfig where
  amiId : String
  defaultRootVolumeSize : Int
  requiresKeyPair : Bool
  sshUser : String
  rdpUser : Option String := none
deriving DecidableEq, Repr

def WORKLOAD_CONFIGS : List (String × WorkloadConfig) :=
  [("development",
    { instanceType := "t3.micro", vcpus := 2, memoryGiB := 1,
      networkPerformance := "Low to Moderate", monitoringLevel := "basic",
      backupStrategy := "none", terminationProtection := false, rootVolumeSize := 8 }),
   ("web-server",
    { instanceType := "t3.medium", vcpus := 2, memoryGiB := 4,
      networkPerformance := "Low to Moderate", monitoringLevel := "detailed",
      backupStrategy := "daily", terminationProtection := true, rootVolumeSize := 20 }),
   ("application",
    { instanceType := "t3.large", vcpus := 2, memoryGiB := 8,
      networkPerformance := "Low to Moderate", monitoringLevel := "detailed",
      backupStrategy := "weekly", terminationProtection := true, rootVolumeSize := 30 }),
   ("database",
    { instanceType := "r6i.large", vcpus := 2, memoryGiB := 16,
      networkPerformance := "Up to 12.5 Gbps", monitoringLevel := "enhanced",
      backupStrategy := "daily", terminationProtection := true, rootVolumeSize := 50 }),
   ("high-performance",
    { instanceType := "c6i.xlarge", vcpus := 4, memoryGiB := 8,
      networkPerformance := "Up to 12.5 Gbps", monitoringLevel := "enterprise",
      backupStrategy := "critical", terminationProtection := true, rootVolumeSize := 100 }),
   ("testing",
    { instanceType := "t3.micro", vcpus := 2, memoryGiB := 1,
      networkPerformance := "Low to Moderate", monitoringLevel := "basic",
      backupStrategy := "none", terminationProtection := false, rootVolumeSize := 8 }),
   ("production",
    { instanceType := "m6i.large", vcpus := 2, memoryGiB := 8,
      networkPerformance := "Up to 12.5 Gbps", monitoringLevel := "enterprise",
      backupStrategy := "daily", terminationProtection := true, rootVolumeSize := 40 })]

def WORKLOAD_ENVIRONMENTS : List (String × String) :=
  [("development", "development"), ("testing", "testing"), ("web-server", "production"),
   ("application", "production"), ("database", "production"),
   ("high-performance", "production"), ("production", "production")]

def OS_CONFIGS : List (String × OsConfig) :=
  [("amazon-linux-2023",
    { amiId := "ami-0c7217cdde317cfec", defaultRootVolumeSize := 8,
      requiresKeyPair := true, sshUser := "ec2-user" }),
   ("amazon-linux-2",
    { amiId := "ami-0c02fb55956c7d316", defaultRootVolumeSize := 8,
      requiresKeyPair := true, sshUser := "ec2-user" }),
   ("ubuntu-22-04",
    { amiId := "ami-0c7217cdde317cfec", defaultRootVolumeSize := 10,
      requiresKeyPair := true, sshUser := "ubuntu" }),
   ("ubuntu-20-04",
    { amiId := "ami-0c7217cdde317cfec", defaultRootVolumeSize := 10,
      requiresKeyPair := true, sshUser := "ubuntu" }),
   ("rhel-9",
    { amiId := "ami-0c7217cdde317cfec", defaultRootVolumeSize := 10,
      requiresKeyPair := true, sshUser := "ec2-user" }),
   ("rhel-8",
    { amiId := "ami-0c7217cdde317cfec", defaultRootVolumeSize := 10,
      requiresKeyPair := true, sshUser := "ec2-user" }),
   ("centos-7",
    { amiId := "ami-0c7217cdde317cfec", defaultRootVolumeSize := 8,
      requiresKeyPair := true, sshUser := "centos" }),
   ("windows-server-2022",
    { amiId := "ami-0c7217cdde317cfec", defaultRootVolumeSize := 30,
      requiresKeyPair := false, sshUser := "", rdpUser := some "Administrator" }),
   ("windows-server-2019",
    { amiId := "ami-0c7217cdde317cfec", defaultRootVolumeSize := 30,
      requiresKeyPair := false, sshUser := "", rdpUser := some "Administrator" })]

/-! ## Resolver (class Ec2 in ec2.ts) -/

namespace Ec2

structure Ec2Config where
  name : String
  operatingSystem : String
  workload : String
  project : String
  subnetId : String
  securityGroupIds : List String
  environment : String
  team : String
  application : String
  costCenter : String
  instanceType : String
  rootVolumeSize : Int
  rootVolumeType : String
  enableDetailedMonitoring : Bool
  enableTerminationProtection : Bool
  tags : List (String × String)
  additionalVolumes : Option (List AdditionalVolumeArgs)
deriving DecidableEq, Repr

def getDefaultEnvironment (workload : String) : String :=
  if ["production", "database", "high-performance"].contains workload then "production"
  else "development"

def getDefaultInstanceType (workload : String) : String :=
  match ([("development", "t3.micro"), ("testing", "t3.small"), ("web-server", "t3.small"),
          ("application", "t3.medium"), ("database", "m5.large"),
          ("high-performance", "c5.xlarge"), ("production", "m5.large")]).lookup workload with
  | some t => t
  | none => "t3.micro"

/-- Character-list version of startsWith, structurally recursive. -/
def startsWithCL : List Char → List Char → Bool
  | [], _ => true
  | _ :: _, [] => false
  | p :: ps, c :: cs => p = c && startsWithCL ps cs

/-- Character-list substring containment, structurally recursive. -/
def hasInfixCL (pat : List Char) : List Char → Bool
  | [] => startsWithCL pat []
  | c :: cs => startsWithCL pat (c :: cs) || hasInfixCL pat cs

/-- Models `os.includes("windows")`: the OS identifier contains the substring. -/
def osIsWindows (os : String) : Bool :=
  hasInfixCL "windows".data os.data

def getDefaultRootVolumeSize (os workload : String) : Int :=
  let baseSize : Int := if osIsWindows os then 50 else 20
  let workloadMultiplier : Int :=
    if workload = "database" ∨ workload = "high-performance" then 2 else 1
  baseSize * workloadMultiplier

def getDefaultRootVolumeType (workload : String) : String :=
  if workload = "high-performance" then "io2" else "gp3"

def getDefaultMonitoring (workload : String) : Bool :=
  ["production", "database", "high-performance"].contains workload

def getDefaultTerminationProtection (workload : String) : Bool :=
  ["production", "database", "high-performance"].contains workload

def setDefaults (args : Ec2Args) : Ec2Config :=
  { name := args.name, operatingSystem := args.operatingSystem, workload := args.workload,
    project := args.project, subnetId := args.subnetId,
    securityGroupIds := args.securityGroupIds,
    environment := jsStrOr args.environment (getDefaultEnvironment args.workload),
    team := jsStrOr args.team "infrastructure",
    application := jsStrOr args.application "general",
    costCenter := jsStrOr args.costCenter "IT-001",
    instanceType := jsStrOr args.instanceType (getDefaultInstanceType args.workload),
    rootVolumeSize :=
      jsIntOr args.rootVolumeSize (getDefaultRootVolumeSize args.operatingSystem args.workload),
    rootVolumeType := jsStrOr args.rootVolumeType (getDefaultRootVolumeType args.workload),
    enableDetailedMonitoring :=
      args.enableDetailedMonitoring.getD (getDefaultMonitoring args.workload),
    enableTerminationProtection :=
      args.enableTerminationProtection.getD (getDefaultTerminationProtection args.workload),
    tags := args.tags,
    additionalVolumes := args.additionalVolumes }

def createEnterpriseTags (config : Ec2Config) : List (String × String) :=
  [("Name", config.name ++ "-instance"), ("Environment", config.environment),
   ("Project", config.project), ("Team", config.team), ("Application", config.application),
   ("CostCenter", config.costCenter), ("Workload", config.workload),
   ("OperatingSystem", config.operatingSystem), ("ManagedBy", "pulumi")] ++ config.tags

structure RootBlockDevice where
  volumeSize : Int
  volumeType : String
  encrypted : Bool
  deleteOnTermination : Bool
  tags : List (String × String)
deriving DecidableEq, Repr

def createRootBlockDevice (config : Ec2Config) : RootBlockDevice :=
  { volumeSize := config.rootVolumeSize,
    volumeType := config.rootVolumeType,
    encrypted := true,
    deleteOnTermination := true,
    tags := [("Name", config.name ++ "-root-volume"), ("Environment", config.environment),
             ("Project", config.project), ("ManagedBy", "pulumi")] }

end Ec2

/-! ## Volume helpers (utils/volumes.ts) -/

namespace VolumesUtil

structure EbsVolume where
  size : Int
  type : String
  encrypted : Bool
  kmsKeyId : Option String
  iops : Option Int
  throughput : Option Int
  nameTag : String
  mountPointTag : String
deriving DecidableEq, Repr

def makeVolume (cfgName : String) (v : AdditionalVolumeArgs) : EbsVolume :=
  { size := v.size,
    type := jsStrOr v.type "gp3",
    encrypted := match v.encrypted with
                 | some false => false
                 | _ => true,
    kmsKeyId := v.kmsKeyId,
    iops := v.iops,
    throughput := v.throughput,
    nameTag := cfgName ++ "-" ++ v.name,
    mountPointTag := jsStrOr v.mountPoint "" }

def createAdditionalVolumes (cfgName : String)
    (additionalVolumes : Option (List AdditionalVolumeArgs)) : List EbsVolume :=
  match additionalVolumes with
  | some vols => vols.map (makeVolume cfgName)
  | none => []

def createRootBlockDevice (rootVolumeSize : Option Int) (workloadConfig : WorkloadConfig)
    (osConfig : OsConfig) (tags : List (String × String)) : Ec2.RootBlockDevice :=
  { volumeSize :=
      jsIntOr rootVolumeSize
        (jsIntOr2 workloadConfig.rootVolumeSize osConfig.defaultRootVolumeSize),
    volumeType := "gp3",
    deleteOnTermination := true,
    encrypted := true,
    tags := tags }

end VolumesUtil

/-! ## Ec2Instance component (src/index.ts), root block device with caller override -/

namespace Ec2Instance

structure RootBlockDeviceArgs where
  volumeSize : Option Int := none
  volumeType : Option String := none
  deleteOnTermination : Option Bool := none
  encrypted : Option Bool := none
  kmsKeyId : Option String := none
  iops : Option Int := none
  throughput : Option Int := none
deriving DecidableEq, Repr

structure InstRootBlockDevice where
  volumeSize : Int
  volumeType : String
  deleteOnTermination : Bool
  encrypted : Bool
  kmsKeyId : Option String
  iops : Option Int
  throughput : Option Int
deriving DecidableEq, Repr

/-- Object spread of the caller arguments over the defaults, then the
conditional copies guarded by JavaScript truthiness. -/
def createRootBlockDevice (rbda : Option RootBlockDeviceArgs) : InstRootBlockDevice :=
  let a := rbda.getD {}
  { volumeSize := a.volumeSize.getD 8,
    volumeType := a.volumeType.getD "gp3",
    deleteOnTermination := a.deleteOnTermination.getD true,
    encrypted := a.encrypted.getD true,
    kmsKeyId := match a.kmsKeyId with
                | some k => if k = "" then none else some k
                | none => none,
    iops := match a.iops with
            | some i => if i = 0 then none else some i
            | none => none,
    throughput := match a.throughput with
                  | some t => if t = 0 then none else some t
                  | none => none }

end Ec2Instance

/-! ## Concrete inputs used by the claim theorems -/

/-- A fully valid raw input: database workload on Amazon Linux 2. -/
def baseArgs : Ec2Args :=
  { name := "db1", operatingSystem := "amazon-linux-2", workload := "database",
    project := "p", subnetId := "subnet-0123456789abcdef0",
    securityGroupIds := ["sg-0123456789abcdef0"] }

def wcOfDatabase : Option WorkloadConfig := WORKLOAD_CONFIGS.lookup "database"

def ocOfAmazonLinux2 : Option OsConfig := OS_CONFIGS.lookup "amazon-linux-2"

/-- The database workload catalog entry, spelled out for use as a witness input. -/
def wcSample : WorkloadConfig :=
  { instanceType := "r6i.large", vcpus := 2, memoryGiB := 16,
    networkPerformance := "Up to 12.5 Gbps", monitoringLevel := "enhanced",
    backupStrategy := "daily", terminationProtection := true, rootVolumeSize := 50 }

/-- The Amazon Linux 2 catalog entry, spelled out for use as a witness input. -/
def ocSample : OsConfig :=
  { amiId := "ami-0c02fb55956c7d316", defaultRootVolumeSize := 8,
    requiresKeyPair := true, sshUser := "ec2-user" }

theorem baseArgs_valid : validateArgs baseArgs = Except.ok () := rfl

/-! ## Claim C1 -/

/-- Claim C1 counterexample: an additional volume spec that explicitly passes
encrypted = false produces a volume with encrypted = false, so not every volume
in the resolved configuration is encrypted. -/
theorem C1_counterexample :
    (VolumesUtil.createAdditionalVolumes "db1"
        (some [{ name := "data", size := 100, encrypted := some false }])).map
      (fun v => v.encrypted) = [false] := rfl

/-- Claim C1 (amended): the root block device is always encrypted, in both the
resolver and the volume helper, and an additional volume is encrypted exactly
when the caller did not explicitly pass encrypted = false. -/
theorem C1_amended_encryption :
    (∀ config : Ec2.Ec2Config, (Ec2.createRootBlockDevice config).encrypted = true) ∧
    (∀ rvs wc oc t, (VolumesUtil.createRootBlockDevice rvs wc oc t).encrypted = true) ∧
    (∀ nm specs,
      (VolumesUtil.createAdditionalVolumes nm (some specs)).map (fun v => v.encrypted) =
        specs.map (fun s => !(s.encrypted == some false))) := by
  refine ⟨fun config => rfl, fun rvs wc oc t => rfl, fun nm specs => ?_⟩
  have hfun : ∀ s : AdditionalVolumeArgs,
      (VolumesUtil.makeVolume nm s).encrypted = !(s.encrypted == some false) := by
    intro s
    cases h : s.encrypted with
    | none => simp [VolumesUtil.makeVolume, h]
    | some b => cases b <;> simp [VolumesUtil.makeVolume, h]
  simp only [VolumesUtil.createAdditionalVolumes, List.map_map]
  exact List.map_congr_left fun s _ => hfun s

/-! ## Claim C2 -/

/-- Claim C2 counterexample: resolving the database scenario with no extra tags
yields a tag map of nine keys, and the key Compliance is not among them, so the
tag map does not contain the ten claimed mandatory keys. -/
theorem C2_counterexample :
    ((Ec2.createEnterpriseTags (Ec2.setDefaults baseArgs)).map Prod.fst).length = 9 ∧
    ((Ec2.createEnterpriseTags (Ec2.setDefaults baseArgs)).map Prod.fst).contains "Compliance"
      = false := ⟨rfl, rfl⟩

/-- Claim C2 (amended): with no caller-supplied extra tags the composed tag map
contains exactly the nine keys Name, Environment, Project, Team, Application,
CostCenter, Workload, OperatingSystem, ManagedBy, with Workload equal to the
input workload and ManagedBy equal to the fixed constant pulumi; there is no
Compliance key. -/
theorem C2_amended (args : Ec2Args) (h : args.tags = []) :
    ((Ec2.createEnterpriseTags (Ec2.setDefaults args)).map Prod.fst) =
      ["Name", "Environment", "Project", "Team", "Application", "CostCenter",
       "Workload", "OperatingSystem", "ManagedBy"] ∧
    (Ec2.createEnterpriseTags (Ec2.setDefaults args)).lookup "Workload" = some args.workload ∧
    (Ec2.createEnterpriseTags (Ec2.setDefaults args)).lookup "ManagedBy" = some "pulumi" ∧
    (Ec2.createEnterpriseTags (Ec2.setDefaults args)).lookup "Compliance" = none := by
  unfold Ec2.createEnterpriseTags Ec2.setDefaults
  simp [h, List.lookup]

theorem C2_amended_witness :
    baseArgs.tags = [] ∧
    (((Ec2.createEnterpriseTags (Ec2.setDefaults baseArgs)).map Prod.fst) =
      ["Name", "Environment", "Project", "Team", "Application", "CostCenter",
       "Workload", "OperatingSystem", "ManagedBy"] ∧
    (Ec2.createEnterpriseTags (Ec2.setDefaults baseArgs)).lookup "Workload"
      = some baseArgs.workload ∧
    (Ec2.createEnterpriseTags (Ec2.setDefaults baseArgs)).lookup "ManagedBy" = some "pulumi" ∧
    (Ec2.createEnterpriseTags (Ec2.setDefaults baseArgs)).lookup "Compliance" = none) :=
  ⟨rfl, C2_amended baseArgs rfl⟩

/-! ## Claim C3 -/

def argsC3web : Ec2Args := { baseArgs with workload := "web-server" }

/-- Claim C3 counterexample: the validated input with workload web-server and no
environment resolves to development, while the workload environment map assigns
production to web-server, so the resolved environment does not equal the map
entry. -/
theorem C3_counterexample :
    validateArgs argsC3web = Except.ok () ∧
    (Ec2.setDefaults argsC3web).environment = "development" ∧
    WORKLOAD_ENVIRONMENTS.lookup "web-server" = some "production" := ⟨rfl, rfl, rfl⟩

/-- Claim C3 (amended): the resolved environment equals the supplied environment
when present and nonempty, and otherwise a default that is production exactly
for the workloads production, database and high-performance, and development
for every other workload; in particular database with no environment resolves
to production and an explicit staging override wins. -/
theorem C3_amended :
    (∀ args : Ec2Args, (Ec2.setDefaults args).environment =
      match args.environment with
      | some e => if e = "" then Ec2.getDefaultEnvironment args.workload else e
      | none => Ec2.getDefaultEnvironment args.workload) ∧
    (WORKLOAD_TYPES.map Ec2.getDefaultEnvironment =
      ["development", "development", "development", "production",
       "production", "development", "production"]) ∧
    (Ec2.setDefaults baseArgs).environment = "production" ∧
    (Ec2.setDefaults { baseArgs with environment := some "staging" }).environment
      = "staging" := by
  refine ⟨fun args => rfl, rfl, rfl, rfl⟩

/-! ## Claim C4 -/

def argsC4 : Ec2Args := { baseArgs with rootVolumeSize := some 0 }

/-- Claim C4 counterexample: a validated input that supplies rootVolumeSize = 0
resolves to the default (40 in the resolver formula, 50 via the workload
catalog), not to the supplied value 0, because the code uses JavaScript `||`
rather than a presence check. -/
theorem C4_counterexample :
    validateArgs argsC4 = Except.ok () ∧
    argsC4.rootVolumeSize = some 0 ∧
    (Ec2.setDefaults argsC4).rootVolumeSize = 40 ∧
    (wcOfDatabase.map fun wc => ocOfAmazonLinux2.map fun oc =>
      (VolumesUtil.createRootBlockDevice argsC4.rootVolumeSize wc oc []).volumeSize) =
      some (some 50) := ⟨rfl, rfl, rfl, rfl⟩

/-- Claim C4 (amended): the resolved root volume size equals the supplied
rootVolumeSize when it is supplied and nonzero, otherwise the workload profile
root volume size when nonzero, otherwise the OS profile default; an explicit
rootVolumeSize = 250 resolves to exactly 250 regardless of every other field,
workload and OS, in both the resolver and the volume helper. -/
theorem C4_amended :
    (∀ rvs wc oc t, (VolumesUtil.createRootBlockDevice rvs wc oc t).volumeSize =
      match rvs with
      | some n =>
          if n = 0 then
            (if wc.rootVolumeSize = 0 then oc.defaultRootVolumeSize else wc.rootVolumeSize)
          else n
      | none => if wc.rootVolumeSize = 0 then oc.defaultRootVolumeSize else wc.rootVolumeSize) ∧
    (∀ args : Ec2Args,
      (Ec2.setDefaults { args with rootVolumeSize := some 250 }).rootVolumeSize = 250) ∧
    (∀ wc oc t, (VolumesUtil.createRootBlockDevice (some 250) wc oc t).volumeSize = 250) := by
  refine ⟨fun rvs wc oc t => ?_, fun args => rfl, fun wc oc t => rfl⟩
  cases rvs <;> rfl

/-! ## Claim C5 -/

def argsC5 : Ec2Args := { baseArgs with rootVolumeSize := some (-5) }

/-- Claim C5 counterexample: a negative rootVolumeSize override passes the
validator untouched, and both resolution paths propagate it, so the resolved
root volume size is negative. -/
theorem C5_counterexample :
    validateArgs argsC5 = Except.ok () ∧
    (Ec2.setDefaults argsC5).rootVolumeSize = -5 ∧
    (wcOfDatabase.map fun wc => ocOfAmazonLinux2.map fun oc =>
      (VolumesUtil.createRootBlockDevice argsC5.rootVolumeSize wc oc []).volumeSize) =
      some (some (-5)) := ⟨rfl, rfl, rfl⟩

theorem getDefaultRootVolumeSize_pos (os workload : String) :
    0 < Ec2.getDefaultRootVolumeSize os workload := by
  unfold Ec2.getDefaultRootVolumeSize
  dsimp only
  split <;> split <;> norm_num

/-- Claim C5 (amended): the resolved root volume size is strictly positive
whenever the caller supplies no override or a nonnegative one; both catalogs
carry strictly positive sizes, so the fall-through defaults are positive. A
negative override, however, is accepted by validation and resolves negative. -/
theorem C5_amended :
    (∀ args : Ec2Args, (∀ n, args.rootVolumeSize = some n → 0 ≤ n) →
        0 < (Ec2.setDefaults args).rootVolumeSize) ∧
    (∀ rvs wc oc t, (∀ n, rvs = some n → 0 ≤ n) →
        0 < wc.rootVolumeSize → 0 < oc.defaultRootVolumeSize →
        0 < (VolumesUtil.createRootBlockDevice rvs wc oc t).volumeSize) ∧
    (∀ p ∈ WORKLOAD_CONFIGS, 0 < p.2.rootVolumeSize) ∧
    (∀ p ∈ OS_CONFIGS, 0 < p.2.defaultRootVolumeSize) := by
  refine ⟨?_, ?_, by decide, by decide⟩
  · intro args hnn
    show 0 < jsIntOr args.rootVolumeSize
      (Ec2.getDefaultRootVolumeSize args.operatingSystem args.workload)
    cases h : args.rootVolumeSize with
    | none => simpa [jsIntOr] using getDefaultRootVolumeSize_pos args.operatingSystem args.workload
    | some n =>
      have hn : 0 ≤ n := hnn n h
      by_cases hz : n = 0
      · simpa [jsIntOr, hz] using getDefaultRootVolumeSize_pos args.operatingSystem args.workload
      · simp only [jsIntOr, hz, if_false]
        omega
  · intro rvs wc oc t hnn hwc hoc
    show 0 < jsIntOr rvs (jsIntOr2 wc.rootVolumeSize oc.defaultRootVolumeSize)
    have hd : 0 < jsIntOr2 wc.rootVolumeSize oc.defaultRootVolumeSize := by
      unfold jsIntOr2
      split <;> omega
    cases h : rvs with
    | none => simpa [jsIntOr] using hd
    | some n =>
      have hn : 0 ≤ n := hnn n h
      by_cases hz : n = 0
      · simpa [jsIntOr, hz] using hd
      · simp only [jsIntOr, hz, if_false]
        omega

theorem C5_amended_witness :
    0 < (Ec2.setDefaults baseArgs).rootVolumeSize ∧
    0 < (VolumesUtil.createRootBlockDevice (some 250) wcSample ocSample []).volumeSize :=
  ⟨C5_amended.1 baseArgs (fun n h => nomatch h),
   C5_amended.2.1 (some 250) wcSample ocSample [] (fun n h => by cases h; decide)
     (by decide) (by decide)⟩

/-! ## Claim C7 -/

def argsC7 : Ec2Args := { baseArgs with workload := "invalid-workload" }

/-- Claim C7: any workload outside the closed set is rejected with an error
whose message enumerates the allowed set verbatim, and the whole-input
validator fails the same way at workload = invalid-workload. -/
theorem C7_invalid_workload_enum :
    (∀ w, WORKLOAD_TYPES.contains w = false →
      validateWorkloadType w = Except.error ("Invalid workload: \"" ++ w
        ++ "\". Valid values: " ++ String.intercalate ", " WORKLOAD_TYPES)) ∧
    String.intercalate ", " WORKLOAD_TYPES =
      "development, web-server, application, database, high-performance, testing, production" ∧
    validateWorkloadType "invalid-workload" =
      Except.error "Invalid workload: \"invalid-workload\". Valid values: development, web-server, application, database, high-performance, testing, production" ∧
    validateArgs argsC7 =
      Except.error "Invalid workload: \"invalid-workload\". Valid values: development, web-server, application, database, high-performance, testing, production" := by
  refine ⟨?_, rfl, rfl, rfl⟩
  intro w h
  unfold validateWorkloadType
  simp only [h, Bool.false_eq_true, if_false]

theorem C7_invalid_workload_enum_witness :
    validateWorkloadType "bogus" = Except.error ("Invalid workload: \"bogus\""
      ++ ". Valid values: " ++ String.intercalate ", " WORKLOAD_TYPES) :=
  C7_invalid_workload_enum.1 "bogus" (by decide)

/-! ## Claim C10 -/

/-- Claim C10 counterexample: the Ec2Instance component spreads the caller
supplied root block device arguments over the defaults, so an explicit
deleteOnTermination = false reaches the resolved root block device. -/
theorem C10_counterexample :
    (Ec2Instance.createRootBlockDevice
      (some { deleteOnTermination := some false })).deleteOnTermination = false := rfl

/-- Claim C10 (amended): the resolver and the volume helper always set
deleteOnTermination = true on the root block device; the Ec2Instance component
defaults it to true but lets an explicit caller value override it. -/
theorem C10_amended :
    (∀ config : Ec2.Ec2Config, (Ec2.createRootBlockDevice config).deleteOnTermination = true) ∧
    (∀ rvs wc oc t, (VolumesUtil.createRootBlockDevice rvs wc oc t).deleteOnTermination = true) ∧
    (∀ a : Ec2Instance.RootBlockDeviceArgs,
      (Ec2Instance.createRootBlockDevice (some a)).deleteOnTermination =
        a.deleteOnTermination.getD true) ∧
    (Ec2Instance.createRootBlockDevice none).deleteOnTermination = true :=
  ⟨fun _ => rfl, fun _ _ _ _ => rfl, fun _ => rfl, rfl⟩

/-! ## Claim C6 -/

theorem matchTok_eq_some_iff (ts cs rest : List Char) :
    matchTok ts cs = some rest ↔
      ∃ ps, cs = ps ++ rest ∧ ps.map toLowerASCII = ts.map toLowerASCII := by
  induction ts generalizing cs with
  | nil => simp [matchTok, List.map_eq_nil_iff]
  | cons t ts ih =>
    cases cs with
    | nil =>
      simp only [matchTok, List.map_cons]
      constructor
      · intro h
        exact Option.noConfusion h
      · rintro ⟨ps, hps, hmap⟩
        obtain ⟨hps0, -⟩ := List.append_eq_nil.mp hps.symm
        subst hps0
        exact absurd hmap (by simp)
    | cons c cs =>
      simp only [matchTok]
      by_cases h : toLowerASCII c = toLowerASCII t
      · rw [if_pos h, ih]
        constructor
        · rintro ⟨ps, hcs, hmap⟩
          refine ⟨c :: ps, ?_, ?_⟩
          · rw [List.cons_append, hcs]
          · simp only [List.map_cons, hmap, h]
        · rintro ⟨ps, hcons, hmap⟩
          cases ps with
          | nil => exact absurd hmap (by simp)
          | cons p ps =>
            simp only [List.cons_append, List.cons.injEq] at hcons
            simp only [List.map_cons, List.cons.injEq] at hmap
            exact ⟨ps, hcons.2, hmap.2⟩
      · rw [if_neg h]
        constructor
        · intro hcontra
          exact Option.noConfusion hcontra
        · rintro ⟨ps, hcons, hmap⟩
          cases ps with
          | nil => exact absurd hmap (by simp)
          | cons p ps =>
            simp only [List.cons_append, List.cons.injEq] at hcons
            simp only [List.map_cons, List.cons.injEq] at hmap
            exact absurd (by rw [hcons.1]; exact hmap.1) h

theorem matchesIdFormat_eq_true_iff (tok s : String) :
    matchesIdFormat tok s = true ↔
      ∃ (ps rest : List Char), s.data = ps ++ rest ∧
        ps.map toLowerASCII = tok.data.map toLowerASCII ∧
        rest.all isHexDigitCI = true ∧ 8 ≤ rest.length ∧ rest.length ≤ 17 := by
  unfold matchesIdFormat
  cases h : matchTok tok.data s.data with
  | none =>
    simp only [Bool.false_eq_true, false_iff]
    rintro ⟨ps, rest, hdata, hmap, -, -, -⟩
    rw [(matchTok_eq_some_iff tok.data s.data rest).mpr ⟨ps, hdata, hmap⟩] at h
    exact Option.noConfusion h
  | some rest =>
    obtain ⟨ps, hdata, hmap⟩ := (matchTok_eq_some_iff tok.data s.data rest).mp h
    simp only [Bool.and_eq_true, decide_eq_true_eq]
    constructor
    · rintro ⟨⟨hall, h8⟩, h17⟩
      exact ⟨ps, rest, hdata, hmap, hall, h8, h17⟩
    · rintro ⟨ps2, rest2, hdata2, hmap2, hall, h8, h17⟩
      have hlen : ps.length = ps2.length := by
        have e1 := congrArg List.length hmap
        have e2 := congrArg List.length hmap2
        simp only [List.length_map] at e1 e2
        rw [e1, e2]
      obtain ⟨-, hr⟩ := List.append_inj (hdata.symm.trans hdata2) hlen
      subst hr
      exact ⟨⟨hall, h8⟩, h17⟩

theorem validateSubnetId_ok_iff (s : String) :
    validateSubnetId s = Except.ok () ↔ matchesIdFormat "subnet-" s = true := by
  unfold validateSubnetId
  split
  · next hcond => simp [hcond]
  · next hcond => simp [hcond]

theorem validateSecurityGroupId_ok_iff (s : String) (i : Nat) :
    validateSecurityGroupId s i = Except.ok () ↔ matchesIdFormat "sg-" s = true := by
  unfold validateSecurityGroupId
  split
  · next hcond => simp [hcond]
  · next hcond => simp [hcond]

/-- Claim C6 counterexample: the id with nine hexadecimal characters after the
literal token, the id with uppercase hexadecimal characters, and the id whose
literal token itself is uppercase are all accepted, although nine is neither
exactly 8 nor exactly 17 and neither uppercase form is the claimed
lowercase-hex shape with the exact lowercase token. -/
theorem C6_counterexample :
    validateSubnetId "subnet-123456789" = Except.ok () ∧
    ("123456789" : String).length = 9 ∧
    validateSubnetId "subnet-ABCDEF12" = Except.ok () ∧
    validateSubnetId "SUBNET-12345678" = Except.ok () := ⟨rfl, rfl, rfl, rfl⟩

/-- Claim C6 (amended): a subnet or security-group id is accepted exactly when
it splits into a token that case-folds to the literal (subnet- or sg-)
followed by 8 to 17 case-insensitive hexadecimal characters, because the i
flag spans the whole regex; subnet-1234 is rejected with the format error and
the 17-character subnet-0123456789abcdef0 is accepted. -/
theorem C6_amended :
    (∀ s, validateSubnetId s = Except.ok () ↔
      ∃ (ps rest : List Char), s.data = ps ++ rest ∧
        ps.map toLowerASCII = "subnet-".data ∧
        rest.all isHexDigitCI = true ∧ 8 ≤ rest.length ∧ rest.length ≤ 17) ∧
    (∀ s i, validateSecurityGroupId s i = Except.ok () ↔
      ∃ (ps rest : List Char), s.data = ps ++ rest ∧
        ps.map toLowerASCII = "sg-".data ∧
        rest.all isHexDigitCI = true ∧ 8 ≤ rest.length ∧ rest.length ≤ 17) ∧
    validateSubnetId "subnet-1234" =
      Except.error "Invalid subnet ID format: subnet-1234. Expected format: subnet-xxxxxxxx or subnet-xxxxxxxxxxxxxxxxx" ∧
    validateSubnetId "subnet-0123456789abcdef0" = Except.ok () := by
  have hfold1 : List.map toLowerASCII "subnet-".data = "subnet-".data := rfl
  have hfold2 : List.map toLowerASCII "sg-".data = "sg-".data := rfl
  refine ⟨fun s => ?_, fun s i => ?_, rfl, rfl⟩
  · rw [validateSubnetId_ok_iff, matchesIdFormat_eq_true_iff]
    simp only [hfold1]
  · rw [validateSecurityGroupId_ok_iff s i, matchesIdFormat_eq_true_iff]
    simp only [hfold2]

/-! ## Claim C8 -/

def volIopsZero : AdditionalVolumeArgs := { name := "data", size := 500, iops := some 0 }

/-- Claim C8 counterexample: a volume spec whose iops field is present with the
value 0, which lies outside [100, 64000], nevertheless passes the validator,
because the JavaScript truthiness guard treats 0 as absent. -/
theorem C8_counterexample :
    volIopsZero.iops = some 0 ∧
    validateAdditionalVolume volIopsZero 0 = Except.ok () := ⟨rfl, rfl⟩

/-- Claim C8 (amended): for a volume spec with a nonempty name and a valid or
absent type, validation succeeds exactly when the size lies in [1, 16384] and
every present iops value is 0 or in [100, 64000] and every present throughput
value is 0 or in [125, 1000]; the size-20000 scenario fails with the range
error and size 500 passes. -/
theorem C8_amended :
    (∀ (v : AdditionalVolumeArgs) (index : Nat),
      v.name ≠ "" → checkVolumeType v = Except.ok () →
      (validateAdditionalVolume v index = Except.ok () ↔
        (1 ≤ v.size ∧ v.size ≤ 16384) ∧
        (∀ i, v.iops = some i → i = 0 ∨ (100 ≤ i ∧ i ≤ 64000)) ∧
        (∀ t, v.throughput = some t → t = 0 ∨ (125 ≤ t ∧ t ≤ 1000)))) ∧
    validateAdditionalVolume { name := "data", size := 20000 } 0 =
      Except.error "Additional volume size must be between 1 and 16384 GB at index 0" ∧
    validateAdditionalVolume { name := "data", size := 500 } 0 = Except.ok () := by
  refine ⟨?_, rfl, rfl⟩
  intro v index hname htype
  have h1 : checkVolumeName v index = Except.ok () := by
    unfold checkVolumeName
    rw [if_neg hname]
  have hsize : (checkVolumeSize v index = Except.ok ()) ↔ (1 ≤ v.size ∧ v.size ≤ 16384) := by
    unfold checkVolumeSize
    split
    · next hc =>
      simp only [Bool.or_eq_true, decide_eq_true_eq] at hc
      constructor
      · intro h
        exact Except.noConfusion h
      · intro hR
        exfalso
        omega
    · next hc =>
      simp only [Bool.or_eq_true, decide_eq_true_eq, not_or] at hc
      exact ⟨fun _ => by omega, fun _ => rfl⟩
  have hiops : (checkVolumeIops v index = Except.ok ()) ↔
      (∀ i, v.iops = some i → i = 0 ∨ (100 ≤ i ∧ i ≤ 64000)) := by
    unfold checkVolumeIops
    cases hi : v.iops with
    | none => simp
    | some i =>
      dsimp only
      split
      · next hc =>
        simp only [Bool.and_eq_true, Bool.or_eq_true, decide_eq_true_eq] at hc
        constructor
        · intro h
          exact Except.noConfusion h
        · intro hR
          exfalso
          rcases hR i rfl with h0 | hio <;> omega
      · next hc =>
        simp only [Bool.and_eq_true, Bool.or_eq_true, decide_eq_true_eq] at hc
        constructor
        · intro _ j hj
          cases hj
          omega
        · intro _
          rfl
  have hthr : (checkVolumeThroughput v index = Except.ok ()) ↔
      (∀ t, v.throughput = some t → t = 0 ∨ (125 ≤ t ∧ t ≤ 1000)) := by
    unfold checkVolumeThroughput
    cases ht : v.throughput with
    | none => simp
    | some t =>
      dsimp only
      split
      · next hc =>
        simp only [Bool.and_eq_true, Bool.or_eq_true, decide_eq_true_eq] at hc
        constructor
        · intro h
          exact Except.noConfusion h
        · intro hR
          exfalso
          rcases hR t rfl with h0 | hio <;> omega
      · next hc =>
        simp only [Bool.and_eq_true, Bool.or_eq_true, decide_eq_true_eq] at hc
        constructor
        · intro _ j hj
          cases hj
          omega
        · intro _
          rfl
  unfold validateAdditionalVolume
  simp only [exSeq_ok_iff]
  simp [h1, htype, hsize, hiops, hthr]

theorem C8_amended_witness :
    validateAdditionalVolume
      { name := "data", size := 500, iops := some 3000, throughput := some 200 } 0 =
      Except.ok () :=
  (C8_amended.1 { name := "data", size := 500, iops := some 3000, throughput := some 200 } 0
      (by decide) rfl).mpr
    ⟨⟨by decide, by decide⟩,
     fun i h => by cases h; exact Or.inr ⟨by decide, by decide⟩,
     fun t h => by cases h; exact Or.inr ⟨by decide, by decide⟩⟩

/-! ## Claim C9 -/

def argsC9 : Ec2Args :=
  { baseArgs with
    additionalVolumes := some [{ name := "data", size := 10 }, { name := "data", size := 20 }] }

/-- Claim C9 counterexample: an input whose two additional volumes carry the
same name passes the whole-input validator, and both duplicately named volumes
flow through resolution into the provisioning configuration. -/
theorem C9_counterexample :
    validateArgs argsC9 = Except.ok () ∧
    ((VolumesUtil.createAdditionalVolumes argsC9.name argsC9.additionalVolumes).map
      (fun v => v.nameTag)) = ["db1-data", "db1-data"] := ⟨rfl, rfl⟩

theorem validateAdditionalVolumesFrom_name (vols : List AdditionalVolumeArgs) :
    ∀ i, validateAdditionalVolumesFrom vols i = Except.ok () → ∀ v ∈ vols, v.name ≠ "" := by
  induction vols with
  | nil =>
    intro i _ v hv
    exact absurd hv (List.not_mem_nil v)
  | cons w rest ih =>
    intro i hok v hv
    simp only [validateAdditionalVolumesFrom, exSeq_ok_iff] at hok
    obtain ⟨hw, hrest⟩ := hok
    rcases List.mem_cons.mp hv with rfl | hv2
    · unfold validateAdditionalVolume at hw
      simp only [exSeq_ok_iff] at hw
      obtain ⟨hnm, -⟩ := hw
      intro hemp
      unfold checkVolumeName at hnm
      rw [if_pos hemp] at hnm
      exact Except.noConfusion hnm
    · exact ih (i + 1) hrest v hv2

/-- Claim C9 (amended): validation only requires each additional volume to have
a nonempty name and valid ranges; it does not check pairwise uniqueness of
names, and resolution maps every spec, duplicates included, to a volume named
from it, so duplicate names reach the provisioning configuration. -/
theorem C9_amended :
    (∀ (args : Ec2Args) (vols : List AdditionalVolumeArgs),
      args.additionalVolumes = some vols → validateArgs args = Except.ok () →
      ∀ v ∈ vols, v.name ≠ "") ∧
    (∀ nm vols, (VolumesUtil.createAdditionalVolumes nm (some vols)).map
        (fun v => v.nameTag) = vols.map (fun v => nm ++ "-" ++ v.name)) := by
  constructor
  · intro args vols hsome hok
    unfold validateArgs at hok
    rw [hsome] at hok
    simp only [exSeq_ok_iff] at hok
    obtain ⟨-, -, -, -, -, -, -, -, -, -, -, -, -, -, hvols⟩ := hok
    exact validateAdditionalVolumesFrom_name vols 0 hvols
  · intro nm vols
    simp only [VolumesUtil.createAdditionalVolumes, List.map_map]
    rfl

theorem C9_amended_witness :
    ({ name := "data", size := 10 } : AdditionalVolumeArgs).name ≠ "" :=
  C9_amended.1 argsC9 [{ name := "data", size := 10 }, { name := "data", size := 20 }] rfl rfl
    { name := "data", size := 10 } (List.Mem.head _)
